import Mathlib

/-!
Verification of the PARLogic inventory engine specification against the
repository.  The repository's `src/` tree contains the React frontend
(`frontend/src/services/api.ts`, page components, cypress end-to-end tests
and their mock fixtures) but not the Python backend engine
(`backend/analysis/par_calc.py` and friends, referenced from the task list
and project status).  Definitions of the engine operations `analyze`,
`calculate` and `recommend` are therefore modelled from the spec (sections
4.1-4.3); everything else (the mock fixtures, the declared TypeScript
interfaces, the `UploadData.onDrop` handler) is embedded from the source
files.  JavaScript/Python floating point numbers are modelled as rationals;
the library routines the spec demands (inverse standard normal CDF, square
root) are passed as explicit function parameters.
-/

namespace PARLogic

/-- Trend classification of a usage profile (spec section 3: `trend` is one of
increasing, decreasing, stable; lowercase strings on the wire). -/
inductive Trend where
  | increasing
  | decreasing
  | stable
deriving DecidableEq

/-- Urgency classification of a stock recommendation (spec section 3:
`urgency` is one of low, medium, high). -/
inductive Urgency where
  | low
  | medium
  | high
deriving DecidableEq

/-- Error kinds of the engine, from spec section 7. -/
inductive EngineError where
  | InsufficientDataError
  | InvalidDateRangeError
  | InvalidServiceLevelError
  | InvalidLeadTimeError
  | ItemMismatchError
deriving DecidableEq

/-- A normalized usage record (spec section 3).  Calendar dates are modelled
as integer day numbers. -/
structure UsageRecord where
  item_id : String
  date : ℤ
  quantity : ℚ
deriving DecidableEq

/-- A derived usage profile (spec section 3).  `seasonality_factor` is an
optional field, absent when the window is too short. -/
structure UsageProfile where
  item_id : String
  average_daily_usage : ℚ
  peak_usage : ℚ
  std_dev_daily_usage : ℚ
  trend : Trend
  seasonality_factor : Option ℚ
  confidence_level : ℚ
deriving DecidableEq

/-- PAR levels for one item, mirroring the `PARLevels` interface of
`frontend/src/services/api.ts` (fields `item_id`, `min_par`, `max_par`,
`reorder_point`, `safety_stock`, `service_level`, `lead_time_days`). -/
structure PARLevels where
  item_id : String
  min_par : ℚ
  max_par : ℚ
  reorder_point : ℚ
  safety_stock : ℚ
  service_level : ℚ
  lead_time_days : ℤ
deriving DecidableEq

/-- Validity predicate for the some-branch of `seasonality_factor`:
spec section 3 requires the ratio to be nonnegative when present. -/
def seasonalityOk : Option ℚ → Prop
  | some f => 0 ≤ f
  | none => True

instance instDecSeasonalityOk : (o : Option ℚ) → Decidable (seasonalityOk o)
  | some f => inferInstanceAs (Decidable (0 ≤ f))
  | none => inferInstanceAs (Decidable True)

/-- Validity of a `UsageProfile`, from the data-model invariants of spec
section 3: `peak_usage ≥ average_daily_usage ≥ 0`, `std_dev_daily_usage ≥ 0`,
and a nonnegative seasonality ratio when present. -/
def UsageProfile.Valid (p : UsageProfile) : Prop :=
  0 ≤ p.average_daily_usage ∧ p.average_daily_usage ≤ p.peak_usage ∧
    0 ≤ p.std_dev_daily_usage ∧ seasonalityOk p.seasonality_factor

instance instDecProfileValid (p : UsageProfile) : Decidable p.Valid :=
  inferInstanceAs (Decidable (_ ∧ _ ∧ _ ∧ _))

/-- Modelled from the spec: the seasonality adjustment of section 4.2 — if
`seasonality_factor` is present and greater than 1, the average daily usage
used for `reorder_point`/`max_par` is multiplied by it; otherwise it is used
unchanged. -/
def adjustedAvg (avg : ℚ) (sf : Option ℚ) : ℚ :=
  match sf with
  | some f => if 1 < f then avg * f else avg
  | none => avg

/-- Modelled from the spec: the PAR Level Calculator of section 4.2, which is
implemented in the backend (`backend/analysis/par_calc.py` per the task list)
and absent from `src/`.  `zFn` is the inverse standard normal CDF routine and
`sqrtFn` the square-root routine, both library routines per the spec; the
rounding of `safety_stock` is implementation-defined per the spec and is
modelled as identity granularity.  Preconditions are checked in the order the
spec lists them: `service_level ∈ (0,1)` else `InvalidServiceLevelError`,
then `lead_time_days ≥ 1` else `InvalidLeadTimeError`. -/
def calculate (zFn sqrtFn : ℚ → ℚ) (review_period_days : ℤ)
    (profile : UsageProfile) (service_level : ℚ) (lead_time_days : ℤ) :
    Except EngineError PARLevels :=
  if ¬(0 < service_level ∧ service_level < 1) then
    Except.error EngineError.InvalidServiceLevelError
  else if lead_time_days < 1 then
    Except.error EngineError.InvalidLeadTimeError
  else
    let z := zFn service_level
    let ss := z * profile.std_dev_daily_usage * sqrtFn (lead_time_days : ℚ)
    let adj := adjustedAvg profile.average_daily_usage profile.seasonality_factor
    let rp := adj * (lead_time_days : ℚ) + ss
    Except.ok
      { item_id := profile.item_id
        min_par := rp
        max_par := rp + adj * (review_period_days : ℚ)
        reorder_point := rp
        safety_stock := ss
        service_level := service_level
        lead_time_days := lead_time_days }

/-- A stock recommendation (spec section 3 and 4.3).  `next_review_date` is a
day number, computed from the current day number passed to `recommend`. -/
structure StockRecommendation where
  item_id : String
  current_stock : ℚ
  recommended_order : ℚ
  urgency : Urgency
  next_review_date : ℤ
  details : String
deriving DecidableEq

/-- Modelled from the spec: the Recommendation Engine of section 4.3, absent
from `src/`.  The classification rules are evaluated in order, first match
wins; `next_review_date` is the current date plus `review_period_days`,
except one day ahead when urgency is high. -/
def recommend (review_period_days : ℤ) (today : ℤ) (levels : PARLevels)
    (current_stock : ℚ) : StockRecommendation :=
  if current_stock ≤ levels.safety_stock then
    { item_id := levels.item_id
      current_stock := current_stock
      recommended_order := levels.max_par - current_stock
      urgency := Urgency.high
      next_review_date := today + 1
      details := "Stock at or below safety stock" }
  else if current_stock ≤ levels.reorder_point then
    { item_id := levels.item_id
      current_stock := current_stock
      recommended_order := levels.max_par - current_stock
      urgency := Urgency.medium
      next_review_date := today + review_period_days
      details := "Stock level approaching reorder point" }
  else if current_stock < levels.max_par then
    { item_id := levels.item_id
      current_stock := current_stock
      recommended_order := 0
      urgency := Urgency.low
      next_review_date := today + review_period_days
      details := "Monitor only" }
  else
    { item_id := levels.item_id
      current_stock := current_stock
      recommended_order := 0
      urgency := Urgency.low
      next_review_date := today + review_period_days
      details := "Stock is adequate" }

/-- The default response of the cypress command `mockCalculatePAR` (unnamed
source file, `Cypress.Commands.add` for `/calculate/par/*`), identical to the
hard-coded intercept body of `frontend/cypress/e2e/par-levels.cy.ts`:
`min_par = 50`, `max_par = 150`, `reorder_point = 75`, `safety_stock = 25`,
`service_level = 0.95`, `lead_time_days = 3`. -/
def mockCalculatePARDefault : PARLevels :=
  { item_id := "ITEM001"
    min_par := 50
    max_par := 150
    reorder_point := 75
    safety_stock := 25
    service_level := 19 / 20
    lead_time_days := 3 }

/-- Modelled from the spec: the filtering step of the analyzer contract of
section 4.1 — records are filtered to the inclusive date range
`[start_date, end_date]` and, when `item` is given, to that item. -/
def filterRecords (records : List UsageRecord) (start_date end_date : ℤ)
    (item : Option String) : List UsageRecord :=
  records.filter fun r =>
    decide (start_date ≤ r.date) && decide (r.date ≤ end_date) &&
      (match item with
       | some i => r.item_id == i
       | none => true)

/-- Number of distinct `item_id` values among a list of records. -/
def distinctItemCount (records : List UsageRecord) : Nat :=
  ((records.map UsageRecord.item_id).dedup).length

/-- Modelled from the spec: step 2 of section 4.1 — quantities bucketed by
calendar day over `[start_date, end_date]`, missing days counted as zero,
forming the daily series. -/
def dailySeries (records : List UsageRecord) (start_date end_date : ℤ) :
    List ℚ :=
  (List.range (end_date + 1 - start_date).toNat).map fun i =>
    ((records.filter fun r => r.date == start_date + (i : ℤ)).map
      UsageRecord.quantity).sum

/-- Arithmetic mean of a series (zero on the empty series, by rational
division by zero). -/
def sampleMean (ys : List ℚ) : ℚ := ys.sum / (ys.length : ℚ)

/-- Modelled from the spec: step 3 of section 4.1 — Bessel-corrected sample
variance with denominator `n - 1`; zero when `n = 1` (and on the empty
series). -/
def sampleVariance (ys : List ℚ) : ℚ :=
  if ys.length ≤ 1 then 0
  else ((ys.map fun y => (y - sampleMean ys) ^ 2).sum) / ((ys.length : ℚ) - 1)

/-- Modelled from the spec: step 4 of section 4.1 — maximum single-day value
of the daily series (the series values are nonnegative, so folding `max`
from 0 is the maximum). -/
def peakUsage (ys : List ℚ) : ℚ := ys.foldr max 0

/-- Modelled from the spec: the least-squares slope of quantity versus
day-index used by step 5 of section 4.1 (zero when the denominator is zero,
by rational division by zero). -/
def regressionSlope (ys : List ℚ) : ℚ :=
  let n : ℚ := ys.length
  let xs : List ℚ := (List.range ys.length).map fun i => (i : ℚ)
  let xbar := xs.sum / n
  let ybar := ys.sum / n
  let num := ((xs.zip ys).map fun p => (p.1 - xbar) * (p.2 - ybar)).sum
  let den := (xs.map fun x => (x - xbar) ^ 2).sum
  num / den

/-- Modelled from the spec: the trend classification of step 5 of section 4.1
with the constant `ε = 0.01` — increasing when the slope exceeds
`ε · average`, decreasing when below `−ε · average`, stable otherwise. -/
def classifyTrend (ys : List ℚ) : Trend :=
  let s := regressionSlope ys
  let m := sampleMean ys
  if (1 / 100) * m < s then Trend.increasing
  else if s < -((1 / 100) * m) then Trend.decreasing
  else Trend.stable

/-- Modelled from the spec: the grouping key of step 6 of section 4.1 — weeks
for windows shorter than 60 days, calendar months otherwise; with dates as
integer day numbers, months are modelled as 30-day blocks. -/
def seasonGroupKey (windowDays start_date d : ℤ) : ℤ :=
  if windowDays < 60 then (d - start_date) / 7 else d / 30

/-- Modelled from the spec: step 6 of section 4.1 — the daily series grouped
by `seasonGroupKey`; the factor is the maximum group mean over the overall
mean, and the field is absent when the window spans fewer than two groups. -/
def seasonalityFactor (records : List UsageRecord) (start_date end_date : ℤ) :
    Option ℚ :=
  let windowDays := end_date + 1 - start_date
  let days := (List.range windowDays.toNat).map fun i => start_date + (i : ℤ)
  let keys := (days.map (seasonGroupKey windowDays start_date)).dedup
  if keys.length < 2 then none
  else
    let dayTotal := fun d =>
      ((records.filter fun r => r.date == d).map UsageRecord.quantity).sum
    let groupMean := fun k =>
      sampleMean
        ((days.filter fun d =>
          seasonGroupKey windowDays start_date d == k).map dayTotal)
    some ((keys.map groupMean).foldr max 0 / sampleMean (days.map dayTotal))

/-- Modelled from the spec: step 7 of section 4.1 — the workable definition
`confidence = clamp(1 − CV / sqrt(n), 0, 1)` with `CV = std_dev / mean`,
using the supplied square-root routine. -/
def confidenceLevel (sqrtFn : ℚ → ℚ) (ys : List ℚ) : ℚ :=
  let cv := sqrtFn (sampleVariance ys) / sampleMean ys
  min 1 (max 0 (1 - cv / sqrtFn (ys.length : ℚ)))

/-- Modelled from the spec: the Usage Pattern Analyzer of section 4.1, absent
from `src/`.  The contract's item-mismatch check (more than one distinct
`item_id` while the filter is unset) is applied to the filtered set; step 1
then fails with `InsufficientDataError` when the filtered set is empty or
`end_date < start_date`.  The result type makes the call fully succeed or
fail with exactly one error kind, never returning a partial result. -/
def analyze (sqrtFn : ℚ → ℚ) (records : List UsageRecord)
    (start_date end_date : ℤ) (item : Option String) :
    Except EngineError UsageProfile :=
  let filtered := filterRecords records start_date end_date item
  if item = none ∧ 1 < distinctItemCount filtered then
    Except.error EngineError.ItemMismatchError
  else if filtered = [] ∨ end_date < start_date then
    Except.error EngineError.InsufficientDataError
  else
    let ys := dailySeries filtered start_date end_date
    Except.ok
      { item_id :=
          match item with
          | some i => i
          | none =>
              match filtered with
              | r :: _ => r.item_id
              | [] => ""
        average_daily_usage := sampleMean ys
        peak_usage := peakUsage ys
        std_dev_daily_usage := sqrtFn (sampleVariance ys)
        trend := classifyTrend ys
        seasonality_factor := seasonalityFactor filtered start_date end_date
        confidence_level := confidenceLevel sqrtFn ys }

/-- Status values of the `FileStatus` interface of
`frontend/src/pages/Upload/UploadData.tsx`. -/
inductive FileUploadStatus where
  | pending
  | success
  | error
deriving DecidableEq

/-- The upload response as read by `UploadData.onDrop`: `message` and `rows`
are declared on `UploadResponse` in `frontend/src/services/api.ts`; `items`
and `date_range` are additionally read from the runtime payload and may be
absent. -/
structure UploadOutcome where
  message : String
  rows : Option ℤ
  items : Option ℤ
  date_range : Option String
deriving DecidableEq

/-- The `details` sub-object of the `FileStatus` interface of
`UploadData.tsx` (`rows`, `items`, `dateRange`, each optional). -/
structure FileDetails where
  rows : Option ℤ
  items : Option ℤ
  dateRange : Option String
deriving DecidableEq

/-- The `FileStatus` interface of `UploadData.tsx`. -/
structure FileStatus where
  name : String
  status : FileUploadStatus
  message : Option String
  details : Option FileDetails
deriving DecidableEq

instance instDecEqExcept {ε α : Type} [DecidableEq ε] [DecidableEq α] :
    DecidableEq (Except ε α)
  | Except.ok a, Except.ok b =>
      if h : a = b then isTrue (by rw [h])
      else isFalse (by intro he; cases he; exact h rfl)
  | Except.ok _, Except.error _ => isFalse (by intro h; cases h)
  | Except.error _, Except.ok _ => isFalse (by intro h; cases h)
  | Except.error e, Except.error f =>
      if h : e = f then isTrue (by rw [h])
      else isFalse (by intro he; cases he; exact h rfl)

/-- A file passed to `onDrop`, together with the outcome its `uploadFile`
call would have: success carries the response, failure carries the thrown
error's message when the thrown value is an `Error` and `none` otherwise. -/
structure DroppedFile where
  name : String
  uploadResult : Except (Option String) UploadOutcome
deriving DecidableEq

/-- The check `file.name.endsWith(".csv")` of `UploadData.onDrop`, expressed
on the character list of the name (equivalent to the string suffix test). -/
def endsWithCsv (s : String) : Bool := ".csv".toList.isSuffixOf s.toList

/-- One iteration of the `onDrop` loop of `UploadData.tsx`: a file whose name
does not end in `.csv` is recorded as an error with message
`Only CSV files are allowed` and skipped; otherwise `uploadFile` is called
and its success or failure recorded.  The boolean reports whether
`uploadFile` was called for the file. -/
def processDroppedFile (f : DroppedFile) : FileStatus × Bool :=
  if !(endsWithCsv f.name) then
    ({ name := f.name
       status := FileUploadStatus.error
       message := some "Only CSV files are allowed"
       details := none }, false)
  else
    match f.uploadResult with
    | Except.ok response =>
        ({ name := f.name
           status := FileUploadStatus.success
           message := some response.message
           details := some
             { rows := response.rows
               items := response.items
               dateRange := response.date_range } }, true)
    | Except.error e =>
        ({ name := f.name
           status := FileUploadStatus.error
           message := some
             (match e with
              | some m => m
              | none => "Upload failed")
           details := none }, true)

/-- The component state touched by `onDrop`: the `files` list and the
`uploading` flag. -/
structure UploadComponentState where
  files : List FileStatus
  uploading : Bool
deriving DecidableEq

/-- The `onDrop` handler of `UploadData.tsx`: it processes the accepted files
in order, appends the new statuses to the existing list, and finishes with
`setUploading(false)`, so the final state always has the flag cleared. -/
def onDrop (acceptedFiles : List DroppedFile) (st : UploadComponentState) :
    UploadComponentState :=
  let processed := acceptedFiles.map processDroppedFile
  { files := st.files ++ processed.map Prod.fst
    uploading := false }

/-- Field names of the `StockRecommendation` interface declared in
`frontend/src/services/api.ts`. -/
def stockRecommendationFields : List String :=
  ["item_id", "current_stock", "recommended_action", "urgency", "details"]

/-- The canonical recommendation shape of spec section 6 that uses
`recommended_order` and `next_review_date`. -/
def shapeOrderNext : List String :=
  ["item_id", "current_stock", "recommended_order", "urgency",
   "next_review_date"]

/-- The canonical recommendation shape of spec section 6 that uses
`recommended_action` and `details`. -/
def shapeActionDetails : List String :=
  ["item_id", "current_stock", "recommended_action", "urgency", "details"]

/-- Fields of a recommendation read by the first revision of the `PARLevels`
page (unnamed source file): `rec.item_id`, `rec.current_stock`,
`rec.recommended_order`, `rec.urgency`, `rec.next_review_date`. -/
def recFieldsReadRev1 : List String :=
  ["item_id", "current_stock", "recommended_order", "urgency",
   "next_review_date"]

/-- Fields of a recommendation read by the second revision of the `PARLevels`
page (unnamed source file, the revision with the service-level and lead-time
sliders): `rec.urgency`, `rec.recommended_action`, `rec.current_stock`,
`rec.details`. -/
def recFieldsReadRev2 : List String :=
  ["urgency", "recommended_action", "current_stock", "details"]

/-- A profile with all-zero usage, used as a concrete instantiation point. -/
def zeroProfile : UsageProfile :=
  { item_id := "ZERO"
    average_daily_usage := 0
    peak_usage := 0
    std_dev_daily_usage := 0
    trend := Trend.stable
    seasonality_factor := none
    confidence_level := 1 }

/-- A profile with unit average and unit standard deviation, used as a
concrete instantiation point. -/
def oneProfile : UsageProfile :=
  { item_id := "ONE"
    average_daily_usage := 1
    peak_usage := 1
    std_dev_daily_usage := 1
    trend := Trend.stable
    seasonality_factor := none
    confidence_level := 1 }

theorem adjustedAvg_nonneg (avg : ℚ) (sf : Option ℚ) (h : 0 ≤ avg)
    (hsf : seasonalityOk sf) : 0 ≤ adjustedAvg avg sf := by
  cases sf with
  | none => exact h
  | some f =>
      simp only [adjustedAvg, seasonalityOk] at *
      split
      · exact mul_nonneg h hsf
      · exact h

theorem adjustedAvg_zero (sf : Option ℚ) : adjustedAvg (0 : ℚ) sf = 0 := by
  cases sf with
  | none => rfl
  | some f => simp [adjustedAvg]

theorem calculate_ok_inv (zFn sqrtFn : ℚ → ℚ) (R : ℤ) (p : UsageProfile)
    (s : ℚ) (L : ℤ) (lv : PARLevels)
    (h : calculate zFn sqrtFn R p s L = Except.ok lv) :
    (0 < s ∧ s < 1) ∧ 1 ≤ L ∧
      lv =
        { item_id := p.item_id
          min_par :=
            adjustedAvg p.average_daily_usage p.seasonality_factor * (L : ℚ) +
              zFn s * p.std_dev_daily_usage * sqrtFn (L : ℚ)
          max_par :=
            adjustedAvg p.average_daily_usage p.seasonality_factor * (L : ℚ) +
                zFn s * p.std_dev_daily_usage * sqrtFn (L : ℚ) +
              adjustedAvg p.average_daily_usage p.seasonality_factor * (R : ℚ)
          reorder_point :=
            adjustedAvg p.average_daily_usage p.seasonality_factor * (L : ℚ) +
              zFn s * p.std_dev_daily_usage * sqrtFn (L : ℚ)
          safety_stock := zFn s * p.std_dev_daily_usage * sqrtFn (L : ℚ)
          service_level := s
          lead_time_days := L } := by
  unfold calculate at h
  split at h
  · exact absurd h (by simp)
  · split at h
    · exact absurd h (by simp)
    · rename_i hs hL
      simp only [Except.ok.injEq] at h
      exact ⟨not_not.mp hs, by omega, h.symm⟩

theorem filterRecords_empty_of_lt (records : List UsageRecord)
    (start_date end_date : ℤ) (item : Option String)
    (h : end_date < start_date) :
    filterRecords records start_date end_date item = [] := by
  unfold filterRecords
  rw [List.filter_eq_nil_iff]
  intro r hr hpred
  simp only [Bool.and_eq_true, decide_eq_true_eq] at hpred
  obtain ⟨⟨h1, h2⟩, -⟩ := hpred
  omega

/-- C1 (counterexample): no profile with `average_daily_usage = 25.5` and any
standard deviation makes `calculate` at `service_level = 0.95`,
`lead_time_days = 3`, `review_period_days = 7` return the documented fixture
`min_par = 50, reorder_point = 75, safety_stock = 25, max_par = 150`, for any
inverse-CDF and square-root routines: the section 4.2 formulas force
`min_par = reorder_point`, and the fixture has `50 ≠ 75`. -/
theorem calculate_fixture_cex :
    ¬∃ (zFn sqrtFn : ℚ → ℚ) (sd : ℚ) (sf : Option ℚ) (tr : Trend) (pk cl : ℚ),
      calculate zFn sqrtFn 7
        { item_id := "ITEM001", average_daily_usage := 51 / 2, peak_usage := pk,
          std_dev_daily_usage := sd, trend := tr, seasonality_factor := sf,
          confidence_level := cl } (19 / 20) 3 =
        Except.ok mockCalculatePARDefault := by
  rintro ⟨zFn, sqrtFn, sd, sf, tr, pk, cl, h⟩
  obtain ⟨-, -, hlv⟩ := calculate_ok_inv _ _ _ _ _ _ _ h
  have h12 : mockCalculatePARDefault.min_par =
      mockCalculatePARDefault.reorder_point := by rw [hlv]
  norm_num [mockCalculatePARDefault] at h12

/-- C1 (amended): for the fixture profile (`average_daily_usage = 25.5`, no
seasonality) and routines whose safety stock at `service_level = 0.95`,
`lead_time_days = 3` evaluates to 25, `calculate` with
`review_period_days = 7` returns `safety_stock = 25`,
`reorder_point = min_par = 101.5` and `max_par = 280`; the fixture values
`min_par = 50, reorder_point = 75, max_par = 150` are the hard-coded mock
response, not reproducible from the section 4.2 formulas. -/
theorem calculate_fixture_amended (zFn sqrtFn : ℚ → ℚ) (sd : ℚ)
    (hss : zFn (19 / 20) * sd * sqrtFn 3 = 25) :
    calculate zFn sqrtFn 7
      { item_id := "ITEM001", average_daily_usage := 51 / 2, peak_usage := 45,
        std_dev_daily_usage := sd, trend := Trend.increasing,
        seasonality_factor := none, confidence_level := 19 / 20 }
      (19 / 20) 3 =
      Except.ok
        { item_id := "ITEM001", min_par := 203 / 2, max_par := 280,
          reorder_point := 203 / 2, safety_stock := 25,
          service_level := 19 / 20, lead_time_days := 3 } := by
  unfold calculate
  rw [if_neg (by norm_num), if_neg (by norm_num)]
  norm_num [adjustedAvg, hss]

/-- Witness for C1 (amended) at concrete routines evaluating the safety
stock to 25. -/
theorem calculate_fixture_amended_witness :
    calculate (fun _ => 25) (fun _ => 1) 7
      { item_id := "ITEM001", average_daily_usage := 51 / 2, peak_usage := 45,
        std_dev_daily_usage := 1, trend := Trend.increasing,
        seasonality_factor := none, confidence_level := 19 / 20 }
      (19 / 20) 3 =
      Except.ok
        { item_id := "ITEM001", min_par := 203 / 2, max_par := 280,
          reorder_point := 203 / 2, safety_stock := 25,
          service_level := 19 / 20, lead_time_days := 3 } :=
  calculate_fixture_amended (fun _ => 25) (fun _ => 1) 1 (by norm_num)

/-- C2: whenever `calculate` returns PAR levels, they satisfy
`min_par = reorder_point` (section 4.2: `min_par = reorder_point`). -/
theorem calculate_min_par_eq_reorder_point (zFn sqrtFn : ℚ → ℚ) (R : ℤ)
    (p : UsageProfile) (s : ℚ) (L : ℤ) (lv : PARLevels)
    (h : calculate zFn sqrtFn R p s L = Except.ok lv) :
    lv.min_par = lv.reorder_point := by
  obtain ⟨-, -, rfl⟩ := calculate_ok_inv zFn sqrtFn R p s L lv h
  rfl

/-- Witness for C2 at a concrete successful call. -/
theorem calculate_min_par_eq_reorder_point_witness :
    ({ item_id := "ZERO", min_par := 0, max_par := 0, reorder_point := 0,
       safety_stock := 0, service_level := 1 / 2,
       lead_time_days := 3 } : PARLevels).min_par =
      ({ item_id := "ZERO", min_par := 0, max_par := 0, reorder_point := 0,
         safety_stock := 0, service_level := 1 / 2,
         lead_time_days := 3 } : PARLevels).reorder_point :=
  calculate_min_par_eq_reorder_point (fun _ => 1) (fun _ => 1) 7 zeroProfile
    (1 / 2) 3 _ (by unfold calculate; norm_num [adjustedAvg, zeroProfile])

/-- C3: every PAR levels value produced by `calculate` on a valid profile
with a nonnegative review period satisfies
`min_par ≤ reorder_point ≤ max_par` and `safety_stock ≤ reorder_point`. -/
theorem calculate_invariants (zFn sqrtFn : ℚ → ℚ) (R : ℤ) (p : UsageProfile)
    (s : ℚ) (L : ℤ) (lv : PARLevels) (hp : p.Valid) (hR : 0 ≤ R)
    (h : calculate zFn sqrtFn R p s L = Except.ok lv) :
    lv.min_par ≤ lv.reorder_point ∧ lv.reorder_point ≤ lv.max_par ∧
      lv.safety_stock ≤ lv.reorder_point := by
  obtain ⟨hs, hL, rfl⟩ := calculate_ok_inv zFn sqrtFn R p s L lv h
  obtain ⟨havg, -, -, hsf⟩ := hp
  have hadj : 0 ≤ adjustedAvg p.average_daily_usage p.seasonality_factor :=
    adjustedAvg_nonneg _ _ havg hsf
  have hLq : (0 : ℚ) ≤ (L : ℚ) := by
    have : (1 : ℚ) ≤ (L : ℚ) := by exact_mod_cast hL
    linarith
  have hRq : (0 : ℚ) ≤ (R : ℚ) := by exact_mod_cast hR
  refine ⟨le_refl _, ?_, ?_⟩
  · dsimp only
    linarith [mul_nonneg hadj hRq]
  · dsimp only
    linarith [mul_nonneg hadj hLq]

/-- Witness for C3 at a concrete valid profile and successful call. -/
theorem calculate_invariants_witness :
    ({ item_id := "ZERO", min_par := 0, max_par := 0, reorder_point := 0,
       safety_stock := 0, service_level := 1 / 2,
       lead_time_days := 3 } : PARLevels).min_par ≤
        ({ item_id := "ZERO", min_par := 0, max_par := 0, reorder_point := 0,
           safety_stock := 0, service_level := 1 / 2,
           lead_time_days := 3 } : PARLevels).reorder_point ∧
      ({ item_id := "ZERO", min_par := 0, max_par := 0, reorder_point := 0,
         safety_stock := 0, service_level := 1 / 2,
         lead_time_days := 3 } : PARLevels).reorder_point ≤
        ({ item_id := "ZERO", min_par := 0, max_par := 0, reorder_point := 0,
           safety_stock := 0, service_level := 1 / 2,
           lead_time_days := 3 } : PARLevels).max_par ∧
      ({ item_id := "ZERO", min_par := 0, max_par := 0, reorder_point := 0,
         safety_stock := 0, service_level := 1 / 2,
         lead_time_days := 3 } : PARLevels).safety_stock ≤
        ({ item_id := "ZERO", min_par := 0, max_par := 0, reorder_point := 0,
           safety_stock := 0, service_level := 1 / 2,
           lead_time_days := 3 } : PARLevels).reorder_point :=
  calculate_invariants (fun _ => 1) (fun _ => 1) 7 zeroProfile (1 / 2) 3 _
    ⟨le_refl _, le_refl _, le_refl _, trivial⟩ (by decide)
    (by unfold calculate; norm_num [adjustedAvg, zeroProfile])

/-- C4: against PAR levels with `safety_stock = 25`, `reorder_point = 75`,
`max_par = 150` (the documented fixture), `recommend` at
`current_stock = 60` classifies urgency medium — the second rule of the
ordered classification, since `60 > 25` and `60 ≤ 75` — and recommends
ordering `max_par − current_stock = 90`. -/
theorem recommend_fixture_medium (today : ℤ) :
    (recommend 7 today mockCalculatePARDefault 60).urgency = Urgency.medium ∧
      (recommend 7 today mockCalculatePARDefault 60).recommended_order = 90 := by
  unfold recommend
  rw [if_neg (by norm_num [mockCalculatePARDefault]),
    if_pos (by norm_num [mockCalculatePARDefault])]
  exact ⟨rfl, by norm_num [mockCalculatePARDefault]⟩

/-- C5: for a fixed profile with nonnegative standard deviation, fixed lead
time with nonnegative square root, and a monotone inverse-CDF routine, the
safety stock returned by `calculate` is non-decreasing in the service
level. -/
theorem safety_stock_monotone (zFn sqrtFn : ℚ → ℚ) (hz : Monotone zFn)
    (R : ℤ) (p : UsageProfile) (L : ℤ) (s1 s2 : ℚ) (lv1 lv2 : PARLevels)
    (hsd : 0 ≤ p.std_dev_daily_usage) (hsq : 0 ≤ sqrtFn (L : ℚ))
    (h12 : s1 ≤ s2)
    (h1 : calculate zFn sqrtFn R p s1 L = Except.ok lv1)
    (h2 : calculate zFn sqrtFn R p s2 L = Except.ok lv2) :
    lv1.safety_stock ≤ lv2.safety_stock := by
  obtain ⟨-, -, rfl⟩ := calculate_ok_inv _ _ _ _ _ _ _ h1
  obtain ⟨-, -, rfl⟩ := calculate_ok_inv _ _ _ _ _ _ _ h2
  dsimp only
  exact mul_le_mul_of_nonneg_right
    (mul_le_mul_of_nonneg_right (hz h12) hsd) hsq

/-- Witness for C5 at concrete service levels 0.25 ≤ 0.5 with the identity
inverse-CDF routine. -/
theorem safety_stock_monotone_witness :
    ({ item_id := "ONE", min_par := 13 / 4, max_par := 41 / 4,
       reorder_point := 13 / 4, safety_stock := 1 / 4,
       service_level := 1 / 4,
       lead_time_days := 3 } : PARLevels).safety_stock ≤
      ({ item_id := "ONE", min_par := 7 / 2, max_par := 21 / 2,
         reorder_point := 7 / 2, safety_stock := 1 / 2,
         service_level := 1 / 2,
         lead_time_days := 3 } : PARLevels).safety_stock :=
  safety_stock_monotone (fun x => x) (fun _ => 1) (fun _ _ hab => hab) 7
    oneProfile 3 (1 / 4) (1 / 2) _ _ (by norm_num [oneProfile]) (by norm_num)
    (by norm_num)
    (by unfold calculate; norm_num [adjustedAvg, oneProfile])
    (by unfold calculate; norm_num [adjustedAvg, oneProfile])

/-- C6: every call to `analyze` with `end_date < start_date` fails with
`InsufficientDataError`; the `Except` result carries exactly one error kind
and no partial result. -/
theorem analyze_invalid_range_insufficient_data (sqrtFn : ℚ → ℚ)
    (records : List UsageRecord) (start_date end_date : ℤ)
    (item : Option String) (h : end_date < start_date) :
    analyze sqrtFn records start_date end_date item =
      Except.error EngineError.InsufficientDataError := by
  have hfil := filterRecords_empty_of_lt records start_date end_date item h
  simp [analyze, hfil, distinctItemCount]

/-- Witness for C6 at a concrete record set and inverted date range. -/
theorem analyze_invalid_range_insufficient_data_witness :
    analyze (fun _ => 0) [{ item_id := "A", date := 5, quantity := 3 }] 10 2
        none =
      Except.error EngineError.InsufficientDataError :=
  analyze_invalid_range_insufficient_data (fun _ => 0) _ 10 2 none (by decide)

/-- C7: `calculate` fails with `InvalidServiceLevelError` for every service
level outside the open interval (0,1), including exactly 0 and exactly 1,
and — the service-level check passing — fails with `InvalidLeadTimeError`
for every `lead_time_days < 1`; no clamping occurs. -/
theorem calculate_validation_errors (zFn sqrtFn : ℚ → ℚ) (R : ℤ)
    (p : UsageProfile) (s : ℚ) (L : ℤ) :
    (¬(0 < s ∧ s < 1) →
        calculate zFn sqrtFn R p s L =
          Except.error EngineError.InvalidServiceLevelError) ∧
      ((0 < s ∧ s < 1) → L < 1 →
        calculate zFn sqrtFn R p s L =
          Except.error EngineError.InvalidLeadTimeError) := by
  constructor
  · intro h
    unfold calculate
    rw [if_pos h]
  · intro hs hL
    unfold calculate
    rw [if_neg (not_not_intro hs), if_pos hL]

/-- Witness for C7 at service levels exactly 0 and exactly 1, and at lead
time 0 with a valid service level. -/
theorem calculate_validation_errors_witness :
    calculate (fun _ => 1) (fun _ => 1) 7 zeroProfile 0 3 =
        Except.error EngineError.InvalidServiceLevelError ∧
      calculate (fun _ => 1) (fun _ => 1) 7 zeroProfile 1 3 =
        Except.error EngineError.InvalidServiceLevelError ∧
      calculate (fun _ => 1) (fun _ => 1) 7 zeroProfile (1 / 2) 0 =
        Except.error EngineError.InvalidLeadTimeError :=
  ⟨(calculate_validation_errors (fun _ => 1) (fun _ => 1) 7 zeroProfile 0
      3).1 (by norm_num),
    (calculate_validation_errors (fun _ => 1) (fun _ => 1) 7 zeroProfile 1
      3).1 (by norm_num),
    (calculate_validation_errors (fun _ => 1) (fun _ => 1) 7 zeroProfile
      (1 / 2) 0).2 (by norm_num) (by norm_num)⟩

/-- C8: for every profile with zero average and zero standard deviation and
valid configuration, `calculate` succeeds and returns
`safety_stock = reorder_point = min_par = max_par = 0`. -/
theorem calculate_zero_usage (zFn sqrtFn : ℚ → ℚ) (R : ℤ) (p : UsageProfile)
    (s : ℚ) (L : ℤ) (hs : 0 < s ∧ s < 1) (hL : 1 ≤ L)
    (havg : p.average_daily_usage = 0) (hsd : p.std_dev_daily_usage = 0) :
    calculate zFn sqrtFn R p s L =
      Except.ok
        { item_id := p.item_id, min_par := 0, max_par := 0,
          reorder_point := 0, safety_stock := 0, service_level := s,
          lead_time_days := L } := by
  unfold calculate
  rw [if_neg (not_not_intro hs), if_neg (by omega)]
  simp [havg, hsd, adjustedAvg_zero]

/-- Witness for C8 at the concrete all-zero profile. -/
theorem calculate_zero_usage_witness :
    calculate (fun _ => 1) (fun _ => 1) 7 zeroProfile (1 / 2) 3 =
      Except.ok
        { item_id := "ZERO", min_par := 0, max_par := 0, reorder_point := 0,
          safety_stock := 0, service_level := 1 / 2, lead_time_days := 3 } :=
  calculate_zero_usage (fun _ => 1) (fun _ => 1) 7 zeroProfile (1 / 2) 3
    (by norm_num) (by decide) rfl rfl

/-- C9 (counterexample): no single canonical recommendation shape — neither
the `recommended_order`/`next_review_date` shape nor the
`recommended_action`/`details` shape — covers the fields read by both
revisions of the `PARLevels` page. -/
theorem recommendation_shape_cex :
    ¬((recFieldsReadRev1 ⊆ shapeOrderNext ∧
        recFieldsReadRev2 ⊆ shapeOrderNext) ∨
      (recFieldsReadRev1 ⊆ shapeActionDetails ∧
        recFieldsReadRev2 ⊆ shapeActionDetails)) := by
  decide

/-- C9 (amended): the two consumer revisions read two different historical
shapes — the first reads only `recommended_order`/`next_review_date` fields,
the second only `recommended_action`/`details` fields; the second matches the
`StockRecommendation` interface declared in `api.ts`, while the first reads
fields absent from that interface. -/
theorem recommendation_shape_amended :
    recFieldsReadRev1 ⊆ shapeOrderNext ∧
      recFieldsReadRev2 ⊆ shapeActionDetails ∧
      recFieldsReadRev2 ⊆ stockRecommendationFields ∧
      ¬recFieldsReadRev1 ⊆ stockRecommendationFields := by
  decide

/-- C10: every file whose name does not end in `.csv` is recorded by
`onDrop` with status error and message `Only CSV files are allowed`, without
calling `uploadFile` for it, and after processing any batch the `uploading`
flag is false. -/
theorem onDrop_rejects_non_csv (f : DroppedFile) (batch : List DroppedFile)
    (st : UploadComponentState) (h : endsWithCsv f.name = false) :
    (processDroppedFile f).1.status = FileUploadStatus.error ∧
      (processDroppedFile f).1.message = some "Only CSV files are allowed" ∧
      (processDroppedFile f).2 = false ∧
      (onDrop batch st).uploading = false := by
  refine ⟨?_, ?_, ?_, rfl⟩ <;> simp [processDroppedFile, h]

/-- Witness for C10 at a concrete non-CSV file. -/
theorem onDrop_rejects_non_csv_witness :
    (processDroppedFile
        { name := "sample.txt", uploadResult := Except.error none }).1.status =
        FileUploadStatus.error ∧
      (processDroppedFile
          { name := "sample.txt",
            uploadResult := Except.error none }).1.message =
        some "Only CSV files are allowed" ∧
      (processDroppedFile
          { name := "sample.txt", uploadResult := Except.error none }).2 =
        false ∧
      (onDrop [{ name := "sample.txt", uploadResult := Except.error none }]
          { files := [], uploading := false }).uploading = false :=
  onDrop_rejects_non_csv
    { name := "sample.txt", uploadResult := Except.error none }
    [{ name := "sample.txt", uploadResult := Except.error none }]
    { files := [], uploading := false } (by decide)

end PARLogic
